import Mathlib

/-!
Shallow embedding of the concertify audio engine (`AudioProcessor` and its
helpers).  The engine mutates a bag of Web Audio nodes; we model that bag as an
explicit record `ProcState` and each method as a pure state transformer.  Where
a method reads the audio context's transport clock (`audioContext.currentTime`)
it takes the clock value `now` as an explicit argument.  Effect parameters and
clock values are modelled as exact rationals; the per-sample vocal-isolation
filter, which uses `Math.sqrt`, is modelled separately over the reals further
below.  Buffers in the state machine are modelled by their descriptors
(channel count, frame count, sample rate): no control-flow decision of the
engine depends on the sample data itself.
-/

namespace Concertify

/-- `ConcertEffectSettings` from the source. -/
structure ConcertEffectSettings where
  reverbAmount : ℚ
  bassBoost : ℚ
  presence : ℚ
  maleChorus : ℚ
  femaleChorus : ℚ
deriving DecidableEq

/-- Descriptor of a decoded `AudioBuffer`: channel count, frame count and
sample rate (`duration = length / sampleRate`). -/
structure BufferDesc where
  numberOfChannels : ℕ
  length : ℕ
  sampleRate : ℚ
deriving DecidableEq

/-- `buffer.duration` in seconds. -/
def BufferDesc.duration (b : BufferDesc) : ℚ := (b.length : ℚ) / b.sampleRate

/-- Descriptor of the synthetic reverb impulse: `createImpulseResponse` (and
the identical block inside `exportProcessedAudio`) build a 2-channel buffer of
`sampleRate * 3` frames whose sample `i` is `(random in [-1,1]) *
exp(-i / (sampleRate * 0.8))`.  Both sites use the formula relative to their
own context's sample rate, so the descriptor is rate-relative: 3 seconds long,
decay time constant 0.8 seconds. -/
structure ImpulseDesc where
  numberOfChannels : ℕ
  lengthSeconds : ℚ
  decaySeconds : ℚ
deriving DecidableEq

/-- The impulse both the live and the offline graph synthesize. -/
def impulseDesc : ImpulseDesc := { numberOfChannels := 2, lengthSeconds := 3, decaySeconds := 4/5 }

inductive BiquadType
  | lowshelf
  | peaking
deriving DecidableEq

/-- Descriptor of a `BiquadFilterNode` (type, frequency, Q, gain).  Q defaults
to 1 (the Web Audio default; the source only sets Q on the presence filter). -/
structure BiquadDesc where
  filterType : BiquadType
  frequency : ℚ
  q : ℚ
  gain : ℚ
deriving DecidableEq

/-- Descriptor of an `AudioBufferSourceNode`: which buffer it replays and, once
`start(0, offset)` has been called, the start offset. -/
structure SourceDesc where
  buffer : BufferDesc
  startedOffset : Option ℚ
deriving DecidableEq

/-- One chorus voice: `{ source, delay, gain }` from the source, with the
source node's buffer, playback rate and started offset inlined. -/
structure ChorusVoice where
  sourceBuffer : BufferDesc
  playbackRate : ℚ
  delayTime : ℚ
  gain : ℚ
  startedOffset : Option ℚ
deriving DecidableEq

/-- The mutable fields of `AudioProcessor`.  Gain nodes are modelled by their
gain value (`Option ℚ`: `none` = the field is null), filters by `BiquadDesc`,
the convolver by its impulse descriptor, and plain node handles by `Bool`. -/
structure ProcState where
  audioContext : Bool
  audioBuffer : Option BufferDesc
  vocalBuffer : Option BufferDesc
  sourceNode : Option SourceDesc
  gainNode : Bool
  convolverNode : Option ImpulseDesc
  dryGainNode : Option ℚ
  wetGainNode : Option ℚ
  bassFilter : Option BiquadDesc
  presenceFilter : Option BiquadDesc
  channelSplitter : Bool
  channelMerger : Bool
  channelGainNodes : List ℚ
  channelStates : List Bool
  maleChorusNodes : List ChorusVoice
  femaleChorusNodes : List ChorusVoice
  maleChorusMixGain : Option ℚ
  femaleChorusMixGain : Option ℚ
  isPlaying : Bool
  startTime : ℚ
  pauseTime : ℚ
deriving DecidableEq

/-- The field initializers of `AudioProcessor`: everything null / empty /
false / 0. -/
def initState : ProcState :=
  { audioContext := false
    audioBuffer := none
    vocalBuffer := none
    sourceNode := none
    gainNode := false
    convolverNode := none
    dryGainNode := none
    wetGainNode := none
    bassFilter := none
    presenceFilter := none
    channelSplitter := false
    channelMerger := false
    channelGainNodes := []
    channelStates := []
    maleChorusNodes := []
    femaleChorusNodes := []
    maleChorusMixGain := none
    femaleChorusMixGain := none
    isPlaying := false
    startTime := 0
    pauseTime := 0 }

/-- `createImpulseResponse()`: guarded on the context, installs the convolver
with the synthesized impulse. -/
def createImpulseResponse (st : ProcState) : ProcState :=
  if st.audioContext = false then st
  else { st with convolverNode := some impulseDesc }

/-- `initialize()` from the source (renamed here): creates the `AudioContext`
and synthesizes the impulse response. -/
def initEngine (st : ProcState) : ProcState :=
  createImpulseResponse { st with audioContext := true }

/-- `loadAudioFile(file)`: initializes the context if absent, then decodes the
file into `audioBuffer`.  Decoding is abstracted: the argument is the decoded
buffer's descriptor. -/
def loadAudioFile (f : BufferDesc) (st : ProcState) : ProcState :=
  let st1 := if st.audioContext = false then initEngine st else st
  { st1 with audioBuffer := some f }

/-- `cleanup()`: stops/disconnects and nulls the source, the channel mute
nodes, both chorus banks and their mix buses, and discards the vocal buffer.
It does not touch `channelStates`, the tone/reverb gain values, the convolver,
the clock fields or `isPlaying`. -/
def cleanup (st : ProcState) : ProcState :=
  { st with
    sourceNode := none
    channelGainNodes := []
    channelSplitter := false
    channelMerger := false
    maleChorusNodes := []
    maleChorusMixGain := none
    femaleChorusNodes := []
    femaleChorusMixGain := none
    vocalBuffer := none }

/-- The derived vocal buffer: `createBuffer(numberOfChannels, length,
sampleRate)` — same shape as the input (sample data is modelled separately,
over `ℝ`, further below). -/
def vocalIsoDesc (b : BufferDesc) : BufferDesc :=
  { numberOfChannels := b.numberOfChannels, length := b.length, sampleRate := b.sampleRate }

/-- `createVocalIsolation()`: caches `applyVocalIsolation(audioBuffer)` in
`vocalBuffer` unless already cached. -/
def createVocalIsolation (st : ProcState) : ProcState :=
  match st.audioBuffer with
  | none => st
  | some b =>
      if st.audioContext = false then st
      else if st.vocalBuffer.isSome then st
      else { st with vocalBuffer := some (vocalIsoDesc b) }

/-- `setupChannelGainNodes()`: resets the gain-node list and the per-channel
enabled states to all-true, and builds the splitter/gain/merger stage when the
buffer has more than one channel. -/
def setupChannelGainNodes (st : ProcState) : ProcState :=
  match st.audioBuffer with
  | none => st
  | some b =>
      if st.audioContext = false then st
      else
        let n := b.numberOfChannels
        let st1 := { st with channelGainNodes := ([] : List ℚ),
                             channelStates := List.replicate n true }
        if 1 < n then
          { st1 with channelSplitter := true
                     channelMerger := true
                     channelGainNodes := List.replicate n (1 : ℚ) }
        else st1

/-- One male chorus voice (loop body of `setupVocalChorus`, male part). -/
def mkMaleVoice (src : BufferDesc) (i : ℕ) : ChorusVoice :=
  { sourceBuffer := src
    playbackRate := 0.88 + (i : ℚ) * 0.023
    delayTime := 0.05 + (i : ℚ) * 0.05
    gain := 0.25
    startedOffset := none }

/-- One female chorus voice (loop body of `setupVocalChorus`, female part). -/
def mkFemaleVoice (src : BufferDesc) (i : ℕ) : ChorusVoice :=
  { sourceBuffer := src
    playbackRate := 1.19 + (i : ℚ) * 0.035
    delayTime := 0.06 + (i : ℚ) * 0.05
    gain := 0.25
    startedOffset := none }

/-- `setupVocalChorus(settings)`: for each part with a positive amount, create
the mix bus at `amount * 0.4` and push 6 voices sourced from
`vocalBuffer || audioBuffer`. -/
def setupVocalChorus (settings : ConcertEffectSettings) (st : ProcState) : ProcState :=
  match st.audioBuffer with
  | none => st
  | some b =>
      if st.audioContext = false then st
      else if settings.maleChorus = 0 ∧ settings.femaleChorus = 0 then st
      else
        let st1 := if st.vocalBuffer.isSome then st else createVocalIsolation st
        let st2 :=
          if 0 < settings.maleChorus then
            { st1 with
              maleChorusMixGain := some (settings.maleChorus * 0.4)
              maleChorusNodes := st1.maleChorusNodes ++
                (List.range 6).map (mkMaleVoice (st1.vocalBuffer.getD b)) }
          else st1
        if 0 < settings.femaleChorus then
          { st2 with
            femaleChorusMixGain := some (settings.femaleChorus * 0.4)
            femaleChorusNodes := st2.femaleChorusNodes ++
              (List.range 6).map (mkFemaleVoice (st2.vocalBuffer.getD b)) }
        else st2

/-- `setupAudioGraph(settings)`: full teardown, then source, master gain,
dry/wet gains, channel mute stage, tone-shaping filters, reverb split, and the
chorus banks. -/
def setupAudioGraph (settings : ConcertEffectSettings) (st : ProcState) : ProcState :=
  match st.audioBuffer with
  | none => st
  | some b =>
      if st.audioContext = false then st
      else
        let st1 := cleanup st
        let st2 := { st1 with
                      sourceNode := some { buffer := b, startedOffset := none }
                      gainNode := true }
        let st3 := setupChannelGainNodes st2
        let st4 := { st3 with
                      bassFilter := some { filterType := BiquadType.lowshelf, frequency := 200,
                                           q := 1, gain := settings.bassBoost }
                      presenceFilter := some { filterType := BiquadType.peaking, frequency := 3000,
                                               q := 1, gain := settings.presence }
                      dryGainNode := some (1 - settings.reverbAmount)
                      wetGainNode := some settings.reverbAmount }
        setupVocalChorus settings st4

/-- Verification helper: the state `setupAudioGraph` reaches just before
`setupVocalChorus` — teardown done, source/master/dry/wet/channel/tone nodes
rebuilt for buffer `b`. -/
def graphBase (settings : ConcertEffectSettings) (st : ProcState) (b : BufferDesc) : ProcState :=
  { st with
    vocalBuffer := none
    sourceNode := some { buffer := b, startedOffset := none }
    gainNode := true
    channelSplitter := if 1 < b.numberOfChannels then true else false
    channelMerger := if 1 < b.numberOfChannels then true else false
    channelGainNodes :=
      if 1 < b.numberOfChannels then List.replicate b.numberOfChannels (1 : ℚ) else []
    channelStates := List.replicate b.numberOfChannels true
    maleChorusNodes := []
    femaleChorusNodes := []
    maleChorusMixGain := none
    femaleChorusMixGain := none
    bassFilter := some { filterType := BiquadType.lowshelf, frequency := 200,
                         q := 1, gain := settings.bassBoost }
    presenceFilter := some { filterType := BiquadType.peaking, frequency := 3000,
                             q := 1, gain := settings.presence }
    dryGainNode := some (1 - settings.reverbAmount)
    wetGainNode := some settings.reverbAmount }

/-- `play(settings)` at transport time `now`: no-op without context or buffer;
otherwise rebuilds the graph, starts the main source and every chorus voice at
the paused offset, and records the session start time. -/
def play (settings : ConcertEffectSettings) (now : ℚ) (st : ProcState) : ProcState :=
  if st.audioContext = false ∨ st.audioBuffer = none then st
  else
    let st1 := setupAudioGraph settings st
    let offset := st1.pauseTime
    { st1 with
      sourceNode := st1.sourceNode.map (fun s => { s with startedOffset := some offset })
      maleChorusNodes := st1.maleChorusNodes.map (fun v => { v with startedOffset := some offset })
      femaleChorusNodes := st1.femaleChorusNodes.map (fun v => { v with startedOffset := some offset })
      startTime := now - offset
      isPlaying := true }

/-- `pause()` at transport time `now`: no-op unless playing with a context;
otherwise records the paused offset and tears the graph down. -/
def pause (now : ℚ) (st : ProcState) : ProcState :=
  if st.isPlaying = false ∨ st.audioContext = false then st
  else
    { cleanup { st with pauseTime := now - st.startTime } with isPlaying := false }

/-- `stop()`: teardown and clock reset. -/
def stop (st : ProcState) : ProcState :=
  { cleanup st with pauseTime := 0, startTime := 0, isPlaying := false }

/-- `node.gain.setValueAtTime(v, ctx.currentTime)` guarded by
`if (node && this.audioContext)`: patch the value when the node and the
context are present. -/
def patchGain (ctx : Bool) (node : Option ℚ) (v : ℚ) : Option ℚ :=
  if ctx then node.map (fun _ => v) else node

/-- As `patchGain`, for a biquad filter's gain parameter. -/
def patchFilterGain (ctx : Bool) (node : Option BiquadDesc) (v : ℚ) : Option BiquadDesc :=
  if ctx then node.map (fun f => { f with gain := v }) else node

/-- `updateEffects(settings)`: no-op unless playing; otherwise patches the
dry/wet mix, the tone filters and the chorus mix buses in place. -/
def updateEffects (settings : ConcertEffectSettings) (st : ProcState) : ProcState :=
  if st.isPlaying = false then st
  else
    { st with
      dryGainNode := patchGain st.audioContext st.dryGainNode (1 - settings.reverbAmount)
      wetGainNode := patchGain st.audioContext st.wetGainNode settings.reverbAmount
      bassFilter := patchFilterGain st.audioContext st.bassFilter settings.bassBoost
      presenceFilter := patchFilterGain st.audioContext st.presenceFilter settings.presence
      maleChorusMixGain := patchGain st.audioContext st.maleChorusMixGain (settings.maleChorus * 0.4)
      femaleChorusMixGain := patchGain st.audioContext st.femaleChorusMixGain (settings.femaleChorus * 0.4) }

/-- `getCurrentTime()` at transport time `now`. -/
def getCurrentTime (now : ℚ) (st : ProcState) : ℚ :=
  if st.audioContext = false then 0
  else if st.isPlaying then now - st.startTime
  else st.pauseTime

/-- `getDuration()`. -/
def getDuration (st : ProcState) : ℚ :=
  match st.audioBuffer with
  | some b => b.duration
  | none => 0

/-- `getChannelStates()`: a copy of the per-channel enabled flags. -/
def getChannelStates (st : ProcState) : List Bool :=
  st.channelStates

/-- `setChannelState(channelIndex, enabled)`: no-op when the index is out of
range of `channelStates`; otherwise records the flag and, when the matching
gain node exists along with the context, sets its gain to 1 or 0. -/
def setChannelState (channelIndex : ℤ) (enabled : Bool) (st : ProcState) : ProcState :=
  if channelIndex < 0 ∨ (st.channelStates.length : ℤ) ≤ channelIndex then st
  else
    let n := channelIndex.toNat
    let st1 := { st with channelStates := st.channelStates.set n enabled }
    if n < st1.channelGainNodes.length ∧ st1.audioContext then
      { st1 with channelGainNodes := st1.channelGainNodes.set n (if enabled then 1 else 0) }
    else st1

/-- `dispose()`: teardown plus closing and dropping the context. -/
def dispose (st : ProcState) : ProcState :=
  { cleanup st with audioContext := false }

/-- The topology-relevant content of one signal graph (live or offline):
whether a channel splitter/merger mute stage exists, the tone-shaping and
reverb nodes with their parameters, and the chorus banks. -/
structure GraphDesc where
  hasChannelMuteStage : Bool
  bassFilter : Option BiquadDesc
  presenceFilter : Option BiquadDesc
  dryGain : Option ℚ
  wetGain : Option ℚ
  convolver : Option ImpulseDesc
  maleVoices : List ChorusVoice
  femaleVoices : List ChorusVoice
  maleMixGain : Option ℚ
  femaleMixGain : Option ℚ
deriving DecidableEq

/-- The graph the live state holds. -/
def liveGraphDesc (st : ProcState) : GraphDesc :=
  { hasChannelMuteStage := st.channelSplitter
    bassFilter := st.bassFilter
    presenceFilter := st.presenceFilter
    dryGain := st.dryGainNode
    wetGain := st.wetGainNode
    convolver := st.convolverNode
    maleVoices := st.maleChorusNodes
    femaleVoices := st.femaleChorusNodes
    maleMixGain := st.maleChorusMixGain
    femaleMixGain := st.femaleChorusMixGain }

/-- The offline graph `exportProcessedAudio` wires up (lines 646-691 of the
source): source, master gain, dry/wet gains, a fresh impulse + convolver, the
two tone filters — and nothing else: no channel splitter/merger, no chorus
voices, no chorus mix buses. -/
def exportGraphDesc (settings : ConcertEffectSettings) : GraphDesc :=
  { hasChannelMuteStage := false
    bassFilter := some { filterType := BiquadType.lowshelf, frequency := 200,
                         q := 1, gain := settings.bassBoost }
    presenceFilter := some { filterType := BiquadType.peaking, frequency := 3000,
                             q := 1, gain := settings.presence }
    dryGain := some (1 - settings.reverbAmount)
    wetGain := some settings.reverbAmount
    convolver := some impulseDesc
    maleVoices := []
    femaleVoices := []
    maleMixGain := none
    femaleMixGain := none }

inductive ExportError
  | noAudioLoaded
deriving DecidableEq

/-- `exportProcessedAudio(settings)`: throws unless a context and a buffer are
present; otherwise renders the offline graph.  The returned state is the
engine state after the call — the method assigns to no instance field, so it
is the input state unchanged.  The rendered result is described by the offline
graph it was produced with. -/
def exportProcessedAudio (settings : ConcertEffectSettings) (st : ProcState) :
    ProcState × Except ExportError GraphDesc :=
  if st.audioContext = false ∨ st.audioBuffer = none then
    (st, Except.error ExportError.noAudioLoaded)
  else
    (st, Except.ok (exportGraphDesc settings))

/-- Whether an export outcome is the `ExportError`. -/
def isExportError : Except ExportError GraphDesc → Bool
  | Except.error _ => true
  | Except.ok _ => false

/-!
## Vocal isolation filter, at the sample level

`applyVocalIsolation` runs per channel, per sample index `i`:
both the "high-pass" and the "low-pass" line read `outputData[i - 1]` — the
previous *final output* sample (already enhanced, compressed and clamped) —
not each stage's own previous value.  Sample values are real numbers
(`Math.sqrt` forces the model out of `ℚ`).
-/

/-- `Math.sign`. -/
noncomputable def jsSign (x : ℝ) : ℝ :=
  if 0 < x then 1 else if x < 0 then -1 else 0

/-- `Math.max(-1, Math.min(1, x))`. -/
noncomputable def clampUnit (x : ℝ) : ℝ := max (-1) (min 1 x)

/-- One iteration of the inner loop of `applyVocalIsolation`: `prev` is
`outputData[i-1]` (`none` at `i = 0`), `x` is `inputData[i]`. -/
noncomputable def vocalIsoSample (prev : Option ℝ) (x : ℝ) : ℝ :=
  let highPassOutput :=
    match prev with
    | some p => 0.95 * p + (1 - 0.95) * x
    | none => x
  let lowPassOutput :=
    match prev with
    | some p => 0.9 * p + (1 - 0.9) * highPassOutput
    | none => highPassOutput
  let enhancedValue := lowPassOutput * 1.3
  let compressedValue := jsSign enhancedValue * Real.sqrt |enhancedValue|
  clampUnit compressedValue

/-- The channel loop, carrying the previously written output sample. -/
noncomputable def vocalIsoGo (prev : Option ℝ) : List ℝ → List ℝ
  | [] => []
  | x :: xs =>
      let y := vocalIsoSample prev x
      y :: vocalIsoGo (some y) xs

/-- `applyVocalIsolation`, one channel. -/
noncomputable def applyVocalIsolationChannel (xs : List ℝ) : List ℝ :=
  vocalIsoGo none xs

/-- `applyVocalIsolation` on a whole buffer (list of channels). -/
noncomputable def applyVocalIsolation (buf : List (List ℝ)) : List (List ℝ) :=
  buf.map applyVocalIsolationChannel

/-- The claimed recurrence, with `h` and `l` each carried as that stage's own
running state between samples: `h[i] = 0.95 h[i-1] + 0.05 x[i]`, `h[0] = x[0]`;
`l[i] = 0.9 l[i-1] + 0.1 h[i]`, `l[0] = h[0]`; output
`clamp(sign(1.3 l[i]) * sqrt |1.3 l[i]|, -1, 1)`.  One step of the `(h, l)`
state. -/
noncomputable def claimedIsoStep (state : Option (ℝ × ℝ)) (x : ℝ) : ℝ × ℝ :=
  match state with
  | none => (x, x)
  | some (h, l) =>
      let h1 := 0.95 * h + 0.05 * x
      (h1, 0.9 * l + 0.1 * h1)

/-- The pointwise nonlinearity shared by all versions of the filter. -/
noncomputable def isoNonlin (l : ℝ) : ℝ :=
  clampUnit (jsSign (l * 1.3) * Real.sqrt |l * 1.3|)

/-- The claimed filter on one channel: own-state recurrences, then the
enhance / compress / clamp output stage. -/
noncomputable def claimedIsoGo (state : Option (ℝ × ℝ)) : List ℝ → List ℝ
  | [] => []
  | x :: xs =>
      let hl := claimedIsoStep state x
      isoNonlin hl.2 :: claimedIsoGo (some hl) xs

/-- The claimed filter (spec wording) on one channel. -/
noncomputable def claimedIsoChannel (xs : List ℝ) : List ℝ :=
  claimedIsoGo none xs

/-- The code's recurrence written as an indexed function (the amended claim):
`out[0] = nonlin(x 0)`; for `i+1`, both stages read `out[i]`:
`h = 0.95 out[i] + 0.05 x[i+1]`, `l = 0.9 out[i] + 0.1 h`,
`out[i+1] = nonlin l`. -/
noncomputable def amendedIsoOut (x : ℕ → ℝ) : ℕ → ℝ
  | 0 => isoNonlin (x 0)
  | i + 1 =>
      let prev := amendedIsoOut x i
      let h := 0.95 * prev + (1 - 0.95) * x (i + 1)
      let l := 0.9 * prev + (1 - 0.9) * h
      isoNonlin l

/-!
## WAV encoding (`audioBufferToWav`), at the byte level

The source allocates `44 + length` bytes and writes through a `DataView`:
header fields at offsets 0,4,8,12,16,20,22,24,28,32,34,36,40 (consecutive and
non-overlapping, exactly covering bytes 0..43), then the interleaved 16-bit
samples at `44 + 2*(i*numberOfChannels + channel)`, also consecutive.  The
embedding therefore builds the same bytes by concatenation, in write order.
Sample values are exact rationals; `DataView.setInt16` truncates its argument
toward zero and stores it as 16-bit two's complement, little-endian.
-/

/-- A rendered buffer handed to `audioBufferToWav`: sample rate plus one
sample list per channel. -/
structure RenderedBuffer where
  sampleRate : ℕ
  data : List (List ℚ)
deriving DecidableEq

def RenderedBuffer.numberOfChannels (b : RenderedBuffer) : ℕ := b.data.length

/-- `buffer.length` (frame count); the data lists are all this long for a
well-formed buffer. -/
def RenderedBuffer.frames (b : RenderedBuffer) : ℕ := (b.data.getD 0 []).length

/-- JavaScript number-to-integer conversion (truncation toward zero), as
performed by `DataView.setInt16`. -/
def jsTrunc (q : ℚ) : ℤ :=
  if 0 ≤ q then ⌊q⌋ else -⌊-q⌋

/-- `Math.max(-1, Math.min(1, x))` on rationals. -/
def clampUnitQ (x : ℚ) : ℚ := max (-1) (min 1 x)

/-- The 16-bit two's-complement little-endian bytes `setInt16(…, v, true)`
stores. -/
def le16 (v : ℤ) : List ℕ :=
  [(v % 65536).toNat % 256, (v % 65536).toNat / 256]

/-- Little-endian bytes of `setUint16`. -/
def le16n (v : ℕ) : List ℕ := [v % 256, v / 256 % 256]

/-- Little-endian bytes of `setUint32`. -/
def le32n (v : ℕ) : List ℕ :=
  [v % 256, v / 256 % 256, v / 65536 % 256, v / 16777216 % 256]

/-- `writeString(0, "RIFF")`: ASCII codes. -/
def riffBytes : List ℕ := [82, 73, 70, 70]

/-- `writeString(8, "WAVE")`. -/
def waveBytes : List ℕ := [87, 65, 86, 69]

/-- `writeString(12, "fmt ")`. -/
def fmtBytes : List ℕ := [102, 109, 116, 32]

/-- `writeString(36, "data")`. -/
def dataBytes : List ℕ := [100, 97, 116, 97]

/-- The 44 header bytes, in the source's write order (offsets 0..43). -/
def wavHeader (numberOfChannels frames sampleRate : ℕ) : List ℕ :=
  riffBytes ++
  le32n (36 + frames * numberOfChannels * 2) ++
  waveBytes ++
  fmtBytes ++
  le32n 16 ++
  le16n 1 ++
  le16n numberOfChannels ++
  le32n sampleRate ++
  le32n (sampleRate * numberOfChannels * 2) ++
  le16n (numberOfChannels * 2) ++
  le16n 16 ++
  dataBytes ++
  le32n (frames * numberOfChannels * 2)

/-- The two bytes written for the sample of channel `c` at frame `i`:
clamp to `[-1, 1]`, scale by `0x7fff = 32767`, truncate, store little-endian. -/
def sampleBytes (b : RenderedBuffer) (i c : ℕ) : List ℕ :=
  le16 (jsTrunc (clampUnitQ ((b.data.getD c []).getD i 0) * 32767))

/-- The interleaved sample section: outer loop over frames, inner loop over
channels. -/
def wavSamples (b : RenderedBuffer) : List ℕ :=
  (List.range b.frames).flatMap (fun i =>
    (List.range b.numberOfChannels).flatMap (fun c => sampleBytes b i c))

/-- `audioBufferToWav(buffer)`: the full byte sequence of the blob. -/
def audioBufferToWav (b : RenderedBuffer) : List ℕ :=
  wavHeader b.numberOfChannels b.frames b.sampleRate ++ wavSamples b

/-!
## Concrete example states used as witnesses and counterexamples
-/

/-- A 2-channel buffer, 1000 frames at 44100 Hz. -/
def demoBuf : BufferDesc := { numberOfChannels := 2, length := 1000, sampleRate := 44100 }

/-- All effects off. -/
def settings0 : ConcertEffectSettings :=
  { reverbAmount := 0, bassBoost := 0, presence := 0, maleChorus := 0, femaleChorus := 0 }

/-- Full male chorus, everything else off. -/
def settingsChorus : ConcertEffectSettings :=
  { reverbAmount := 0, bassBoost := 0, presence := 0, maleChorus := 1, femaleChorus := 0 }

/-- Engine with `demoBuf` loaded (context initialized by the load). -/
def demoLoaded : ProcState := loadAudioFile demoBuf initState

/-- Engine playing `demoBuf` from transport time 0 with no effects. -/
def demoPlaying : ProcState := play settings0 0 demoLoaded

/-- As `demoPlaying`, with channel 0 muted. -/
def demoMuted : ProcState := setChannelState 0 false demoPlaying

/-- A tiny rendered buffer: 2 channels, 1 frame. -/
def wavDemo : RenderedBuffer := { sampleRate := 44100, data := [[1/2], [-1/2]] }

/-!
## Theorems

First, equation lemmas describing the graph-rebuild pipeline.
-/

theorem setupChannelGainNodes_eq (st : ProcState) (b : BufferDesc)
    (hc : st.audioContext = true) (hb : st.audioBuffer = some b) :
    setupChannelGainNodes st =
      if 1 < b.numberOfChannels then
        { st with channelSplitter := true
                  channelMerger := true
                  channelGainNodes := List.replicate b.numberOfChannels (1 : ℚ)
                  channelStates := List.replicate b.numberOfChannels true }
      else
        { st with channelGainNodes := ([] : List ℚ)
                  channelStates := List.replicate b.numberOfChannels true } := by
  unfold setupChannelGainNodes
  simp only [hb, hc]
  split_ifs <;> simp_all

theorem setupVocalChorus_eq (s : ConcertEffectSettings) (st : ProcState) (b : BufferDesc)
    (hc : st.audioContext = true) (hb : st.audioBuffer = some b)
    (hv : st.vocalBuffer = none) :
    setupVocalChorus s st =
      if s.maleChorus = 0 ∧ s.femaleChorus = 0 then st
      else
        { st with
          vocalBuffer := some (vocalIsoDesc b)
          maleChorusMixGain :=
            if 0 < s.maleChorus then some (s.maleChorus * 0.4) else st.maleChorusMixGain
          maleChorusNodes :=
            if 0 < s.maleChorus then
              st.maleChorusNodes ++ (List.range 6).map (mkMaleVoice (vocalIsoDesc b))
            else st.maleChorusNodes
          femaleChorusMixGain :=
            if 0 < s.femaleChorus then some (s.femaleChorus * 0.4) else st.femaleChorusMixGain
          femaleChorusNodes :=
            if 0 < s.femaleChorus then
              st.femaleChorusNodes ++ (List.range 6).map (mkFemaleVoice (vocalIsoDesc b))
            else st.femaleChorusNodes } := by
  unfold setupVocalChorus createVocalIsolation
  simp only [hb, hc]
  split_ifs <;> simp_all

theorem setupAudioGraph_eq (s : ConcertEffectSettings) (st : ProcState) (b : BufferDesc)
    (hc : st.audioContext = true) (hb : st.audioBuffer = some b) :
    setupAudioGraph s st = setupVocalChorus s (graphBase s st b) := by
  unfold setupAudioGraph cleanup graphBase
  simp only [hb, hc]
  rw [setupChannelGainNodes_eq _ b]
  · split_ifs <;> simp_all
  · simp
  · simp [hb]

theorem graphBase_full (s : ConcertEffectSettings) (st : ProcState) (b : BufferDesc)
    (hc : st.audioContext = true) (hb : st.audioBuffer = some b) :
    setupAudioGraph s st =
      if s.maleChorus = 0 ∧ s.femaleChorus = 0 then graphBase s st b
      else
        { graphBase s st b with
          vocalBuffer := some (vocalIsoDesc b)
          maleChorusMixGain := if 0 < s.maleChorus then some (s.maleChorus * 0.4) else none
          maleChorusNodes :=
            if 0 < s.maleChorus then (List.range 6).map (mkMaleVoice (vocalIsoDesc b)) else []
          femaleChorusMixGain :=
            if 0 < s.femaleChorus then some (s.femaleChorus * 0.4) else none
          femaleChorusNodes :=
            if 0 < s.femaleChorus then (List.range 6).map (mkFemaleVoice (vocalIsoDesc b)) else [] } := by
  rw [setupAudioGraph_eq s st b hc hb,
      setupVocalChorus_eq s (graphBase s st b) b (by simp [graphBase, hc])
        (by simp [graphBase, hb]) (by simp [graphBase])]
  split_ifs <;> simp [graphBase]

theorem setupAudioGraph_fields (s : ConcertEffectSettings) (st : ProcState) (b : BufferDesc)
    (hc : st.audioContext = true) (hb : st.audioBuffer = some b) :
    (setupAudioGraph s st).audioContext = true ∧
    (setupAudioGraph s st).audioBuffer = some b ∧
    (setupAudioGraph s st).sourceNode = some { buffer := b, startedOffset := none } ∧
    (setupAudioGraph s st).channelStates = List.replicate b.numberOfChannels true ∧
    (setupAudioGraph s st).isPlaying = st.isPlaying ∧
    (setupAudioGraph s st).startTime = st.startTime ∧
    (setupAudioGraph s st).pauseTime = st.pauseTime ∧
    (setupAudioGraph s st).convolverNode = st.convolverNode ∧
    (setupAudioGraph s st).bassFilter =
      some { filterType := BiquadType.lowshelf, frequency := 200, q := 1, gain := s.bassBoost } ∧
    (setupAudioGraph s st).presenceFilter =
      some { filterType := BiquadType.peaking, frequency := 3000, q := 1, gain := s.presence } ∧
    (setupAudioGraph s st).dryGainNode = some (1 - s.reverbAmount) ∧
    (setupAudioGraph s st).wetGainNode = some s.reverbAmount := by
  rw [graphBase_full s st b hc hb]
  split_ifs <;> simp [graphBase, hc, hb]

theorem play_fields (s : ConcertEffectSettings) (now : ℚ) (st : ProcState) (b : BufferDesc)
    (hc : st.audioContext = true) (hb : st.audioBuffer = some b) :
    (play s now st).sourceNode = some { buffer := b, startedOffset := some st.pauseTime } ∧
    (play s now st).startTime = now - st.pauseTime ∧
    (play s now st).isPlaying = true ∧
    (play s now st).audioContext = true ∧
    (play s now st).channelStates = List.replicate b.numberOfChannels true ∧
    (∀ v ∈ (play s now st).maleChorusNodes, v.startedOffset = some st.pauseTime) ∧
    (∀ v ∈ (play s now st).femaleChorusNodes, v.startedOffset = some st.pauseTime) := by
  obtain ⟨g1, g2, g3, g4, g5, g6, g7, g8⟩ :=
    setupAudioGraph_fields s st b hc hb
  unfold play
  rw [if_neg (by simp [hc, hb])]
  refine ⟨?_, ?_, rfl, ?_, ?_, ?_, ?_⟩
  · simp [g3, g7]
  · simp [g7]
  · simp [g1]
  · simp [g4]
  · intro v hv
    simp only [List.mem_map] at hv
    obtain ⟨w, hw, rfl⟩ := hv
    simp [g7]
  · intro v hv
    simp only [List.mem_map] at hv
    obtain ⟨w, hw, rfl⟩ := hv
    simp [g7]

/-- C8: control operations in an invalid state are silent no-ops that leave
the engine state unchanged: `play` with no buffer loaded, `updateEffects` when
not playing, `pause` when not playing, and `setChannelState` with an index
outside `[0, channelCount)`. -/
theorem C8_noop_invalid_state :
    (∀ s now st, st.audioBuffer = none → play s now st = st) ∧
    (∀ s st, st.isPlaying = false → updateEffects s st = st) ∧
    (∀ now st, st.isPlaying = false → pause now st = st) ∧
    (∀ (i : ℤ) (e : Bool) st, i < 0 ∨ (st.channelStates.length : ℤ) ≤ i →
      setChannelState i e st = st) := by
  refine ⟨?_, ?_, ?_, ?_⟩
  · intro s now st h
    simp [play, h]
  · intro s st h
    simp [updateEffects, h]
  · intro now st h
    simp [pause, h]
  · intro i e st h
    simp [setChannelState, h]

/-- Witness for C8 at concrete inputs. -/
theorem C8_noop_invalid_state_witness :
    initState.audioBuffer = none ∧
    demoLoaded.isPlaying = false ∧
    play settings0 0 initState = initState ∧
    updateEffects settings0 demoLoaded = demoLoaded ∧
    pause 0 demoLoaded = demoLoaded ∧
    setChannelState 5 true demoLoaded = demoLoaded :=
  ⟨rfl, rfl,
   C8_noop_invalid_state.1 settings0 0 initState rfl,
   C8_noop_invalid_state.2.1 settings0 demoLoaded rfl,
   C8_noop_invalid_state.2.2.1 0 demoLoaded rfl,
   C8_noop_invalid_state.2.2.2 5 true demoLoaded (by decide)⟩

/-- C9, counterexample to the claim as stated: after `dispose()` the buffer is
still loaded, yet `exportProcessedAudio` fails (the guard also checks the
audio context, which dispose dropped) — so "fails exactly when no buffer is
loaded" is false. -/
theorem C9_counterexample :
    (dispose demoLoaded).audioBuffer = some demoBuf ∧
    isExportError (exportProcessedAudio settings0 (dispose demoLoaded)).2 = true := by
  decide

/-- C9, amended: `exportProcessedAudio` fails with `ExportError` exactly when
no buffer is loaded or the audio context is absent (never initialized, or
released by `dispose`); it never mutates engine state, and the failure case
yields no rendered output. -/
theorem C9_amended_export_error :
    ∀ s st,
      (isExportError (exportProcessedAudio s st).2 = true ↔
        (st.audioContext = false ∨ st.audioBuffer = none)) ∧
      (exportProcessedAudio s st).1 = st := by
  intro s st
  by_cases h : st.audioContext = false ∨ st.audioBuffer = none <;>
    simp [exportProcessedAudio, isExportError, h]

/-- C7: while playing, `updateEffects` patches every live parameter in place —
dry gain to `1 - reverbAmount`, wet gain to `reverbAmount`, bass gain to
`bassBoost`, presence gain to `presence`, and each chorus part's mix-bus gain
(whenever that bus exists, whatever amount it was built with) to
`amount * 0.4` — and changes nothing else: no node is created, destroyed or
rebuilt (every other field of the state, including both chorus voice banks,
is untouched). -/
theorem C7_update_effects_patches_in_place :
    ∀ s st, st.isPlaying = true → st.audioContext = true →
      updateEffects s st =
        { st with
          dryGainNode := st.dryGainNode.map (fun _ => 1 - s.reverbAmount)
          wetGainNode := st.wetGainNode.map (fun _ => s.reverbAmount)
          bassFilter := st.bassFilter.map (fun f => { f with gain := s.bassBoost })
          presenceFilter := st.presenceFilter.map (fun f => { f with gain := s.presence })
          maleChorusMixGain := st.maleChorusMixGain.map (fun _ => s.maleChorus * 0.4)
          femaleChorusMixGain := st.femaleChorusMixGain.map (fun _ => s.femaleChorus * 0.4) } := by
  intro s st hp hc
  simp [updateEffects, patchGain, patchFilterGain, hp, hc]

/-- Witness for C7: patch a playing graph (built with zero chorus) with a
settings snapshot whose chorus amount differs. -/
theorem C7_update_effects_patches_in_place_witness :
    demoPlaying.isPlaying = true ∧ demoPlaying.audioContext = true ∧
    updateEffects settingsChorus demoPlaying =
      { demoPlaying with
        dryGainNode := demoPlaying.dryGainNode.map (fun _ => 1 - settingsChorus.reverbAmount)
        wetGainNode := demoPlaying.wetGainNode.map (fun _ => settingsChorus.reverbAmount)
        bassFilter := demoPlaying.bassFilter.map (fun f => { f with gain := settingsChorus.bassBoost })
        presenceFilter := demoPlaying.presenceFilter.map (fun f => { f with gain := settingsChorus.presence })
        maleChorusMixGain := demoPlaying.maleChorusMixGain.map (fun _ => settingsChorus.maleChorus * 0.4)
        femaleChorusMixGain := demoPlaying.femaleChorusMixGain.map (fun _ => settingsChorus.femaleChorus * 0.4) } :=
  ⟨by decide, by decide,
   C7_update_effects_patches_in_place settingsChorus demoPlaying (by decide) (by decide)⟩

/-- C3, counterexample to the claim as stated: channel mute state does not
survive pause/resume (resuming rebuilds the graph, and
`setupChannelGainNodes` re-fills the states with `true`), and loading a new
file does not reset it (only the next graph build does). -/
theorem C3_counterexample :
    getChannelStates (play settings0 2 (pause 1 demoMuted)) ≠ getChannelStates demoMuted ∧
    getChannelStates (loadAudioFile demoBuf demoMuted) ≠ [true, true] := by
  decide

/-- C3, amended: channel mute state is unchanged by `updateEffects`, by
`pause`, by `stop` and by `loadAudioFile` itself; it is reset to all-enabled
(one flag per channel of the loaded buffer) by every `play` call — including
the resume after a pause — because `play` rebuilds the graph. -/
theorem C3_amended_channel_states :
    ∀ s f now now2 st b, st.audioContext = true → st.audioBuffer = some b →
      getChannelStates (updateEffects s st) = getChannelStates st ∧
      getChannelStates (pause now st) = getChannelStates st ∧
      getChannelStates (stop st) = getChannelStates st ∧
      getChannelStates (loadAudioFile f st) = getChannelStates st ∧
      getChannelStates (play s now2 st) = List.replicate b.numberOfChannels true := by
  intro s f now now2 st b hc hb
  refine ⟨?_, ?_, ?_, ?_, ?_⟩
  · unfold updateEffects getChannelStates
    split_ifs <;> rfl
  · unfold pause cleanup getChannelStates
    split_ifs <;> rfl
  · rfl
  · unfold loadAudioFile initEngine createImpulseResponse getChannelStates
    split_ifs <;> rfl
  · simp [play, hc, hb, setupAudioGraph, cleanup, setupChannelGainNodes,
      setupVocalChorus, createVocalIsolation, getChannelStates]
    split_ifs <;> simp

/-- Witness for C3 (amended) at a concrete muted paused state. -/
theorem C3_amended_channel_states_witness :
    (pause 1 demoMuted).audioContext = true ∧
    (pause 1 demoMuted).audioBuffer = some demoBuf ∧
    getChannelStates (play settings0 2 (pause 1 demoMuted)) =
      List.replicate demoBuf.numberOfChannels true :=
  ⟨by decide, by decide,
   (C3_amended_channel_states settings0 demoBuf 0 2 (pause 1 demoMuted) demoBuf
     (by decide) (by decide)).2.2.2.2⟩

/-- C6: while playing, `getCurrentTime` is transport-now minus the session
start offset; while paused it is the recorded paused offset; `play` after
`pause` starts the main source and every chorus voice at the paused offset
(not 0) and re-bases the session start so the clock continues from there; and
`stop` resets the paused offset to 0. -/
theorem C6_playback_clock :
    (∀ now st, st.audioContext = true → st.isPlaying = true →
      getCurrentTime now st = now - st.startTime) ∧
    (∀ now st, st.audioContext = true → st.isPlaying = false →
      getCurrentTime now st = st.pauseTime) ∧
    (∀ st, (stop st).pauseTime = 0 ∧ (stop st).startTime = 0 ∧ (stop st).isPlaying = false) ∧
    (∀ s now1 now2 st b, st.audioContext = true → st.audioBuffer = some b →
      st.isPlaying = true →
      (pause now1 st).pauseTime = now1 - st.startTime ∧
      getCurrentTime now2 (pause now1 st) = now1 - st.startTime ∧
      (play s now2 (pause now1 st)).sourceNode =
        some { buffer := b, startedOffset := some (now1 - st.startTime) } ∧
      (∀ v ∈ (play s now2 (pause now1 st)).maleChorusNodes,
        v.startedOffset = some (now1 - st.startTime)) ∧
      (∀ v ∈ (play s now2 (pause now1 st)).femaleChorusNodes,
        v.startedOffset = some (now1 - st.startTime)) ∧
      (play s now2 (pause now1 st)).startTime = now2 - (now1 - st.startTime)) := by
  refine ⟨?_, ?_, ?_, ?_⟩
  · intro now st hc hp
    simp [getCurrentTime, hc, hp]
  · intro now st hc hp
    simp [getCurrentTime, hc, hp]
  · intro st
    exact ⟨rfl, rfl, rfl⟩
  · intro s now1 now2 st b hc hb hp
    have hpause : ∀ x : ℚ, pause now1 st =
        { cleanup { st with pauseTime := now1 - st.startTime } with isPlaying := false } := by
      intro x
      simp [pause, hc, hp]
    have h1c : (pause now1 st).audioContext = true := by
      rw [hpause 0]; simpa [cleanup] using hc
    have h1b : (pause now1 st).audioBuffer = some b := by
      rw [hpause 0]; simpa [cleanup] using hb
    have h1t : (pause now1 st).pauseTime = now1 - st.startTime := by
      rw [hpause 0]; simp [cleanup]
    have h1p : (pause now1 st).isPlaying = false := by
      rw [hpause 0]
    obtain ⟨p1, p2, p3, p4, p5, p6, p7⟩ :=
      play_fields s now2 (pause now1 st) b h1c h1b
    refine ⟨h1t, ?_, ?_, ?_, ?_, ?_⟩
    · simp [getCurrentTime, h1c, h1p, h1t]
    · rw [p1, h1t]
    · intro v hv
      rw [h1t] at p6
      exact p6 v hv
    · intro v hv
      rw [h1t] at p7
      exact p7 v hv
    · rw [p2, h1t]

/-- Witness for C6: pause at transport time 1 a session started at 0, resume
at transport time 2. -/
theorem C6_playback_clock_witness :
    demoPlaying.audioContext = true ∧ demoPlaying.audioBuffer = some demoBuf ∧
    demoPlaying.isPlaying = true ∧
    (play settingsChorus 2 (pause 1 demoPlaying)).sourceNode =
      some { buffer := demoBuf, startedOffset := some ((1 : ℚ) - demoPlaying.startTime) } :=
  ⟨by decide, by decide, by decide,
   ((C6_playback_clock.2.2.2 settingsChorus 1 2 demoPlaying demoBuf
      (by decide) (by decide) (by decide)).2.2.1)⟩

/-- C10: with the context initialized, `loadAudioFile` changes only the
decoded buffer — the playback clock and the channel mute state are untouched —
and if the engine was paused, `getCurrentTime` still reports the paused
offset afterwards and the next `play` starts the new file at that offset, not
at 0. -/
theorem C10_load_frame_effect :
    ∀ s f now now2 st, st.audioContext = true →
      loadAudioFile f st = { st with audioBuffer := some f } ∧
      (st.isPlaying = false →
        getCurrentTime now (loadAudioFile f st) = st.pauseTime ∧
        getCurrentTime now (loadAudioFile f st) = getCurrentTime now st ∧
        (play s now2 (loadAudioFile f st)).sourceNode =
          some { buffer := f, startedOffset := some st.pauseTime }) := by
  intro s f now now2 st hc
  have hload : loadAudioFile f st = { st with audioBuffer := some f } := by
    simp [loadAudioFile, hc]
  refine ⟨hload, fun hp => ⟨?_, ?_, ?_⟩⟩
  · simp [hload, getCurrentTime, hc, hp]
  · simp [hload, getCurrentTime, hc, hp]
  · have h1c : (loadAudioFile f st).audioContext = true := by
      rw [hload]; simpa using hc
    have h1b : (loadAudioFile f st).audioBuffer = some f := by
      rw [hload]
    have h1t : (loadAudioFile f st).pauseTime = st.pauseTime := by
      rw [hload]
    obtain ⟨p1, -, -, -, -, -, -⟩ := play_fields s now2 (loadAudioFile f st) f h1c h1b
    rw [p1, h1t]

/-- Witness for C10: load a second file while paused at offset 1. -/
theorem C10_load_frame_effect_witness :
    (pause 1 demoPlaying).audioContext = true ∧
    (pause 1 demoPlaying).isPlaying = false ∧
    (play settings0 2 (loadAudioFile demoBuf (pause 1 demoPlaying))).sourceNode =
      some { buffer := demoBuf, startedOffset := some (pause 1 demoPlaying).pauseTime } :=
  ⟨by decide, by decide,
   ((C10_load_frame_effect settings0 demoBuf 0 2 (pause 1 demoPlaying)
      (by decide)).2 (by decide)).2.2⟩

/-- C4: for a positive chorus amount (the claim ranges over `(0,1]`), building
the graph instantiates exactly 6 voices for that part — male voice `i` with
playback rate `0.88 + i*0.023`, delay `0.05 + i*0.05` and gain `0.25`, female
voice `i` with rate `1.19 + i*0.035`, delay `0.06 + i*0.05` and gain `0.25`
(see `mkMaleVoice` / `mkFemaleVoice`) — sourced from the vocal buffer when
available, else the original buffer, with the part's mix bus at
`amount * 0.4`. -/
theorem C4_chorus_voices :
    ∀ s st b, st.audioContext = true → st.audioBuffer = some b →
      s.maleChorus ≤ 1 → s.femaleChorus ≤ 1 →
      (0 < s.maleChorus →
        (setupAudioGraph s st).maleChorusNodes =
          (List.range 6).map (mkMaleVoice ((setupAudioGraph s st).vocalBuffer.getD b)) ∧
        (setupAudioGraph s st).maleChorusNodes.length = 6 ∧
        (setupAudioGraph s st).maleChorusMixGain = some (s.maleChorus * 0.4)) ∧
      (0 < s.femaleChorus →
        (setupAudioGraph s st).femaleChorusNodes =
          (List.range 6).map (mkFemaleVoice ((setupAudioGraph s st).vocalBuffer.getD b)) ∧
        (setupAudioGraph s st).femaleChorusNodes.length = 6 ∧
        (setupAudioGraph s st).femaleChorusMixGain = some (s.femaleChorus * 0.4)) := by
  intro s st b hc hb hm1 hf1
  rw [graphBase_full s st b hc hb]
  constructor
  · intro hm
    have hne : ¬(s.maleChorus = 0 ∧ s.femaleChorus = 0) := fun h =>
      absurd h.1 (ne_of_gt hm)
    rw [if_neg hne]
    simp [hm]
  · intro hf
    have hne : ¬(s.maleChorus = 0 ∧ s.femaleChorus = 0) := fun h =>
      absurd h.2 (ne_of_gt hf)
    rw [if_neg hne]
    simp [hf]

/-- Witness for C4 at full male chorus on the demo buffer. -/
theorem C4_chorus_voices_witness :
    demoLoaded.audioContext = true ∧ demoLoaded.audioBuffer = some demoBuf ∧
    (0 : ℚ) < settingsChorus.maleChorus ∧ settingsChorus.maleChorus ≤ 1 ∧
    (setupAudioGraph settingsChorus demoLoaded).maleChorusNodes =
      (List.range 6).map
        (mkMaleVoice ((setupAudioGraph settingsChorus demoLoaded).vocalBuffer.getD demoBuf)) ∧
    (setupAudioGraph settingsChorus demoLoaded).maleChorusMixGain =
      some (settingsChorus.maleChorus * 0.4) :=
  ⟨by decide, by decide, by decide, by decide,
   ((C4_chorus_voices settingsChorus demoLoaded demoBuf (by decide) (by decide)
      (by decide) (by decide)).1 (by decide)).1,
   ((C4_chorus_voices settingsChorus demoLoaded demoBuf (by decide) (by decide)
      (by decide) (by decide)).1 (by decide)).2.2⟩

/-- C2, counterexample to the claim as stated: with a nonzero chorus amount
(and a 2-channel buffer), the live graph contains the chorus voice bank and
the channel-mute stage, but the offline export graph contains neither — the
export topology is not the full live topology. -/
theorem C2_counterexample :
    liveGraphDesc (setupAudioGraph settingsChorus demoLoaded) ≠
      exportGraphDesc settingsChorus := by
  decide

/-- C2, amended: `exportProcessedAudio` builds an independent, non-live graph
whose impulse response, tone shaping and reverb stages match the live graph
for the same settings — but it always omits the chorus voice banks, the
chorus mix buses and the channel-mute stage, even when a chorus amount is
nonzero or the buffer is multi-channel. -/
theorem C2_amended_offline_graph :
    ∀ s st b, st.audioContext = true → st.audioBuffer = some b →
      st.convolverNode = some impulseDesc →
      exportGraphDesc s =
        { liveGraphDesc (setupAudioGraph s st) with
          hasChannelMuteStage := false
          maleVoices := []
          femaleVoices := []
          maleMixGain := none
          femaleMixGain := none } := by
  intro s st b hc hb hconv
  obtain ⟨g1, g2, g3, g4, g5, g6, g7, g8, g9, g10, g11, g12⟩ :=
    setupAudioGraph_fields s st b hc hb
  unfold exportGraphDesc liveGraphDesc
  simp [g8, g9, g10, g11, g12, hconv]

/-- Witness for C2 (amended) on the demo state. -/
theorem C2_amended_offline_graph_witness :
    demoLoaded.audioContext = true ∧ demoLoaded.audioBuffer = some demoBuf ∧
    demoLoaded.convolverNode = some impulseDesc ∧
    exportGraphDesc settingsChorus =
      { liveGraphDesc (setupAudioGraph settingsChorus demoLoaded) with
        hasChannelMuteStage := false
        maleVoices := []
        femaleVoices := []
        maleMixGain := none
        femaleMixGain := none } :=
  ⟨by decide, by decide, rfl,
   C2_amended_offline_graph settingsChorus demoLoaded demoBuf
     (by decide) (by decide) rfl⟩

/-!
### Vocal isolation: code recurrence vs the claimed own-state recurrence
-/

theorem vocalIsoGo_length : ∀ (xs : List ℝ) (p : Option ℝ),
    (vocalIsoGo p xs).length = xs.length := by
  intro xs
  induction xs with
  | nil => intro p; rfl
  | cons y ys ih => intro p; simp [vocalIsoGo, ih]

theorem vocalIsoSample_none_eq (x : ℝ) : vocalIsoSample none x = isoNonlin x := rfl

theorem vocalIsoSample_some_eq (p x : ℝ) :
    vocalIsoSample (some p) x =
      isoNonlin (0.9 * p + (1 - 0.9) * (0.95 * p + (1 - 0.95) * x)) := rfl

theorem amendedIsoOut_succ (x : ℕ → ℝ) (i : ℕ) :
    amendedIsoOut x (i + 1) = vocalIsoSample (some (amendedIsoOut x i)) (x (i + 1)) := rfl

theorem vocalIsoGo_getD :
    ∀ (xs : List ℝ) (x : ℕ → ℝ) (k : ℕ), (∀ j, xs.getD j 0 = x (k + 1 + j)) →
      ∀ i, i < xs.length →
        (vocalIsoGo (some (amendedIsoOut x k)) xs).getD i 0 = amendedIsoOut x (k + 1 + i) := by
  intro xs
  induction xs with
  | nil =>
      intro x k hx i hi
      simp at hi
  | cons y ys ih =>
      intro x k hx i hi
      have hy : y = x (k + 1) := by simpa using hx 0
      have hz : vocalIsoSample (some (amendedIsoOut x k)) y = amendedIsoOut x (k + 1) := by
        rw [hy, amendedIsoOut_succ]
      cases i with
      | zero =>
          show vocalIsoSample (some (amendedIsoOut x k)) y = amendedIsoOut x (k + 1 + 0)
          rw [hz]
      | succ m =>
          have hx2 : ∀ j, ys.getD j 0 = x (k + 1 + 1 + j) := by
            intro j
            have harith : k + 1 + (j + 1) = k + 1 + 1 + j := by omega
            have := hx (j + 1)
            rw [harith] at this
            simpa using this
          have hm : m < ys.length := by simpa using hi
          have hrec := ih x (k + 1) hx2 m hm
          have harith : k + 1 + (m + 1) = k + 1 + 1 + m := by omega
          rw [harith]
          show (vocalIsoGo (some (vocalIsoSample (some (amendedIsoOut x k)) y)) ys).getD m 0 =
            amendedIsoOut x (k + 1 + 1 + m)
          rw [hz]
          exact hrec

theorem applyVocalIsolationChannel_getD :
    ∀ (xs : List ℝ) (i : ℕ), i < xs.length →
      (applyVocalIsolationChannel xs).getD i 0 = amendedIsoOut (fun j => xs.getD j 0) i := by
  intro xs
  cases xs with
  | nil =>
      intro i hi
      simp at hi
  | cons y ys =>
      intro i hi
      cases i with
      | zero => rfl
      | succ m =>
          have hz : vocalIsoSample none y =
              amendedIsoOut (fun j => (y :: ys).getD j 0) 0 := rfl
          have hx : ∀ j, ys.getD j 0 = (fun j => (y :: ys).getD j 0) (0 + 1 + j) := by
            intro j
            have harith : 0 + 1 + j = j + 1 := by omega
            simp [harith]
          have hm : m < ys.length := by simpa using hi
          have hrec := vocalIsoGo_getD ys (fun j => (y :: ys).getD j 0) 0 hx m hm
          have harith : 0 + 1 + m = m + 1 := by omega
          rw [harith] at hrec
          show (vocalIsoGo (some (vocalIsoSample none y)) ys).getD m 0 =
            amendedIsoOut (fun j => (y :: ys).getD j 0) (m + 1)
          rw [hz]
          exact hrec

theorem getD_map_eq {α β : Type} (f : α → β) (d1 : α) (d2 : β) (hf : f d1 = d2) :
    ∀ (l : List α) (c : ℕ), (l.map f).getD c d2 = f (l.getD c d1) := by
  intro l
  induction l with
  | nil => intro c; simp [hf]
  | cons a t ih =>
      intro c
      cases c with
      | zero => simp
      | succ m => simpa using ih m

/-- Evaluating the shared output nonlinearity when the enhanced value is in
`(0, 1]`: the sign is 1 and the clamp is the identity. -/
theorem isoNonlin_eval {l e : ℝ} (he : l * 1.3 = e) (h1 : 0 < e) (h2 : e ≤ 1) :
    isoNonlin l = Real.sqrt e := by
  unfold isoNonlin jsSign clampUnit
  rw [he, if_pos h1, abs_of_pos h1, one_mul,
      min_eq_right (Real.sqrt_le_one.mpr h2),
      max_eq_right (le_trans (by norm_num : (-1 : ℝ) ≤ 0) (Real.sqrt_nonneg e))]

/-- C1, counterexample to the claim as stated: on the channel `[5/26, 0]` the
code's filter and the claimed recurrence (with `h` and `l` carried as each
stage's own state) disagree at sample 1 — the code feeds both stages from the
previous *final output* sample (`outputData[i-1]`), which at index 1 is the
compressed value `1/2`, not the raw stage states `h[0] = l[0] = 5/26`. -/
theorem C1_counterexample :
    applyVocalIsolationChannel [5/26, 0] ≠ claimedIsoChannel [5/26, 0] := by
  have he0 : ((5 : ℝ)/26) * 1.3 = 1/4 := by norm_num
  have h0 : isoNonlin ((5 : ℝ)/26) = 1/2 := by
    rw [isoNonlin_eval he0 (by norm_num) (by norm_num),
        show (1/4 : ℝ) = (1/2)^2 by norm_num,
        Real.sqrt_sq (by norm_num : (0:ℝ) ≤ 1/2)]
  have hcode : applyVocalIsolationChannel [(5 : ℝ)/26, 0] =
      [isoNonlin ((5 : ℝ)/26), vocalIsoSample (some (isoNonlin ((5 : ℝ)/26))) 0] := rfl
  have hcode1 : vocalIsoSample (some ((1 : ℝ)/2)) 0 = Real.sqrt (2587/4000) := by
    rw [vocalIsoSample_some_eq]
    exact isoNonlin_eval (by norm_num) (by norm_num) (by norm_num)
  have hspec : claimedIsoChannel [(5 : ℝ)/26, 0] =
      [isoNonlin ((5 : ℝ)/26),
       isoNonlin ((claimedIsoStep (some ((5 : ℝ)/26, (5 : ℝ)/26)) 0).2)] := rfl
  have hspec1 : (claimedIsoStep (some ((5 : ℝ)/26, (5 : ℝ)/26)) 0).2 = 199/1040 := by
    unfold claimedIsoStep
    norm_num
  have hspec2 : isoNonlin ((199 : ℝ)/1040) = Real.sqrt (2587/10400) :=
    isoNonlin_eval (by norm_num) (by norm_num) (by norm_num)
  have hne : Real.sqrt ((2587 : ℝ)/4000) ≠ Real.sqrt ((2587 : ℝ)/10400) :=
    ne_of_gt (Real.sqrt_lt_sqrt (by norm_num) (by norm_num))
  intro h
  rw [hcode, h0, hcode1, hspec, h0, hspec1, hspec2] at h
  exact hne (congrArg (fun l => l.getD 1 0) h)

/-- C1, amended: per channel, the filter computes `out[0] =
clamp(sign(1.3 x[0]) * sqrt |1.3 x[0]|, -1, 1)` and, for `i > 0`, feeds both
one-pole stages from the previous final output sample:
`h = 0.95 out[i-1] + 0.05 x[i]`, `l = 0.9 out[i-1] + 0.1 h`, then
`out[i] = clamp(sign(1.3 l) * sqrt |1.3 l|, -1, 1)` (see `amendedIsoOut`);
the stages do not carry their own running state between samples. -/
theorem C1_amended_vocal_isolation :
    ∀ (buf : List (List ℝ)) (c : ℕ),
      ((applyVocalIsolation buf).getD c []).length = (buf.getD c []).length ∧
      ∀ i, i < (buf.getD c []).length →
        ((applyVocalIsolation buf).getD c []).getD i 0 =
          amendedIsoOut (fun j => (buf.getD c []).getD j 0) i := by
  intro buf c
  have hch : (applyVocalIsolation buf).getD c [] =
      applyVocalIsolationChannel (buf.getD c []) :=
    getD_map_eq applyVocalIsolationChannel [] [] rfl buf c
  rw [hch]
  exact ⟨vocalIsoGo_length _ _, fun i hi => applyVocalIsolationChannel_getD _ i hi⟩

/-- Witness for C1 (amended) on the concrete buffer `[[5/26, 0]]` at channel
0, sample 1. -/
theorem C1_amended_vocal_isolation_witness :
    1 < (([[(5 : ℝ)/26, 0]] : List (List ℝ)).getD 0 []).length ∧
    ((applyVocalIsolation [[(5 : ℝ)/26, 0]]).getD 0 []).getD 1 0 =
      amendedIsoOut (fun j => (([[(5 : ℝ)/26, 0]] : List (List ℝ)).getD 0 []).getD j 0) 1 :=
  ⟨by simp, (C1_amended_vocal_isolation [[(5 : ℝ)/26, 0]] 0).2 1 (by simp)⟩

/-!
### WAV layout
-/

theorem flatMap_length_const {α β : Type} (f : α → List β) (L : ℕ) :
    ∀ (l : List α), (∀ a ∈ l, (f a).length = L) → (l.flatMap f).length = L * l.length := by
  intro l
  induction l with
  | nil => intro h; simp
  | cons a t ih =>
      intro h
      simp only [List.flatMap_cons, List.length_append, List.length_cons]
      rw [h a (by simp), ih (fun b hb => h b (by simp [hb]))]
      ring

theorem flatMap_getD_const {α β : Type} (f : α → List β) (L : ℕ) (d : β) (dA : α) :
    ∀ (l : List α) (k r : ℕ), (∀ a ∈ l, (f a).length = L) → k < l.length → r < L →
      (l.flatMap f).getD (L * k + r) d = (f (l.getD k dA)).getD r d := by
  intro l
  induction l with
  | nil =>
      intro k r h hk hr
      simp at hk
  | cons a t ih =>
      intro k r h hk hr
      cases k with
      | zero =>
          simp only [List.flatMap_cons, Nat.mul_zero, Nat.zero_add, List.getD_cons_zero]
          exact List.getD_append _ _ _ _ (by rw [h a (by simp)]; exact hr)
      | succ m =>
          simp only [List.flatMap_cons, List.getD_cons_succ]
          have hidx : L * (m + 1) + r = (f a).length + (L * m + r) := by
            rw [h a (by simp)]
            ring
          rw [hidx, List.getD_append_right _ _ _ _ (Nat.le_add_right _ _),
              Nat.add_sub_cancel_left]
          exact ih m r (fun b hb => h b (by simp [hb])) (by simpa using hk) hr

theorem range_getD (n k : ℕ) (h : k < n) : (List.range n).getD k 0 = k := by
  rw [List.getD_eq_getElem _ _ (by simpa using h)]
  simp

theorem wavHeader_length (ch fr sr : ℕ) : (wavHeader ch fr sr).length = 44 := by
  simp [wavHeader, riffBytes, waveBytes, fmtBytes, dataBytes, le32n, le16n]

theorem sampleBytes_length (b : RenderedBuffer) (i c : ℕ) :
    (sampleBytes b i c).length = 2 := rfl

theorem wavSamples_inner_length (b : RenderedBuffer) (i : ℕ) :
    ((List.range b.numberOfChannels).flatMap (fun c => sampleBytes b i c)).length =
      2 * b.numberOfChannels := by
  rw [flatMap_length_const _ 2 _ (fun a _ => sampleBytes_length b i a)]
  simp

theorem wavSamples_length (b : RenderedBuffer) :
    (wavSamples b).length = b.frames * b.numberOfChannels * 2 := by
  unfold wavSamples
  rw [flatMap_length_const _ (2 * b.numberOfChannels) _ (fun a _ => wavSamples_inner_length b a)]
  simp
  ring

/-- C5: the exported byte sequence is the 44-byte RIFF/WAVE header — `RIFF`,
`36 + dataLength`, `WAVE`, `fmt `, 16, format code 1, channel count, sample
rate, byte rate `rate*channels*2`, block align `channels*2`, 16 bits, `data`,
`dataLength` — followed by the 16-bit signed little-endian samples in
sample-major channel-interleaved order, each sample clamped to `[-1,1]`,
scaled by 32767 and truncated to integer. -/
theorem C5_wav_layout :
    ∀ (b : RenderedBuffer),
      (audioBufferToWav b).length = 44 + b.frames * b.numberOfChannels * 2 ∧
      (audioBufferToWav b).take 44 =
        riffBytes ++ le32n (36 + b.frames * b.numberOfChannels * 2) ++ waveBytes ++ fmtBytes ++
        le32n 16 ++ le16n 1 ++ le16n b.numberOfChannels ++ le32n b.sampleRate ++
        le32n (b.sampleRate * b.numberOfChannels * 2) ++ le16n (b.numberOfChannels * 2) ++
        le16n 16 ++ dataBytes ++ le32n (b.frames * b.numberOfChannels * 2) ∧
      ∀ i c, i < b.frames → c < b.numberOfChannels →
        (audioBufferToWav b).getD (44 + 2 * (i * b.numberOfChannels + c)) 0 =
          ((jsTrunc (clampUnitQ ((b.data.getD c []).getD i 0) * 32767)) % 65536).toNat % 256 ∧
        (audioBufferToWav b).getD (44 + 2 * (i * b.numberOfChannels + c) + 1) 0 =
          ((jsTrunc (clampUnitQ ((b.data.getD c []).getD i 0) * 32767)) % 65536).toNat / 256 := by
  intro b
  have hhl := wavHeader_length b.numberOfChannels b.frames b.sampleRate
  refine ⟨?_, ?_, ?_⟩
  · unfold audioBufferToWav
    rw [List.length_append, hhl, wavSamples_length]
  · unfold audioBufferToWav
    rw [show (44 : ℕ) = (wavHeader b.numberOfChannels b.frames b.sampleRate).length from
          hhl.symm,
        List.take_left]
    rfl
  · intro i c hi hc
    have houter : ∀ r, r < 2 * b.numberOfChannels →
        (wavSamples b).getD (2 * b.numberOfChannels * i + r) 0 =
          ((List.range b.numberOfChannels).flatMap (fun x => sampleBytes b i x)).getD r 0 := by
      intro r hr
      unfold wavSamples
      rw [flatMap_getD_const _ (2 * b.numberOfChannels) 0 0 _ i r
            (fun a _ => wavSamples_inner_length b a) (by simpa using hi) hr,
          range_getD _ _ hi]
    have hinner : ∀ r, r < 2 →
        ((List.range b.numberOfChannels).flatMap (fun x => sampleBytes b i x)).getD
            (2 * c + r) 0 = (sampleBytes b i c).getD r 0 := by
      intro r hr
      rw [flatMap_getD_const _ 2 0 0 _ c r (fun a _ => sampleBytes_length b i a)
            (by simpa using hc) hr,
          range_getD _ _ hc]
    constructor
    · unfold audioBufferToWav
      have hidx : 44 + 2 * (i * b.numberOfChannels + c) =
          (wavHeader b.numberOfChannels b.frames b.sampleRate).length +
            (2 * b.numberOfChannels * i + (2 * c + 0)) := by
        rw [hhl]
        ring
      rw [hidx, List.getD_append_right _ _ _ _ (Nat.le_add_right _ _),
          Nat.add_sub_cancel_left, houter (2 * c + 0) (by omega), hinner 0 (by omega)]
      rfl
    · unfold audioBufferToWav
      have hidx : 44 + 2 * (i * b.numberOfChannels + c) + 1 =
          (wavHeader b.numberOfChannels b.frames b.sampleRate).length +
            (2 * b.numberOfChannels * i + (2 * c + 1)) := by
        rw [hhl]
        ring
      rw [hidx, List.getD_append_right _ _ _ _ (Nat.le_add_right _ _),
          Nat.add_sub_cancel_left, houter (2 * c + 1) (by omega), hinner 1 (by omega)]
      rfl

/-- Witness for C5 on a concrete 2-channel, 1-frame buffer. -/
theorem C5_wav_layout_witness :
    0 < wavDemo.frames ∧ 0 < wavDemo.numberOfChannels ∧
    (audioBufferToWav wavDemo).getD (44 + 2 * (0 * wavDemo.numberOfChannels + 0)) 0 =
      ((jsTrunc (clampUnitQ ((wavDemo.data.getD 0 []).getD 0 0) * 32767)) % 65536).toNat % 256 :=
  ⟨by decide, by decide, ((C5_wav_layout wavDemo).2.2 0 0 (by decide) (by decide)).1⟩

end Concertify
